import Mathlib

/-!
Verification of the PageSpeed checker backend (`src/backend/server.js`).

The development shallowly embeds the report-adaptation core of the server:
input validation, upstream query building, report extraction from an
upstream payload, upstream error classification, and the single- and
dual-strategy orchestrators.  Numbers are modelled as rationals (`ℚ`) and
integers (`ℤ`); JavaScript `null`/`undefined` fields become `Option`;
fallible extraction returns `Except`.
-/

namespace PageSpeed

/-! ## URL validation (`isValidUrl`, server.js lines 27-34)

`isValidUrl` calls the platform's WHATWG `new URL(string)` constructor and
reports whether it succeeds.  `parseURL` models that constructor to the
precision needed here: an input is accepted exactly when it starts with a
scheme — an ASCII letter followed by letters, digits, `+`, `-` or `.` —
terminated by a colon; the remainder after the colon is the scheme-specific
part.  In particular a scheme-less string such as `example.com` is
rejected. -/

def isSchemeChar (c : Char) : Bool :=
  c.isAlphanum || c == '+' || c == '-' || c == '.'

def parseURL (s : String) : Option (String × String) :=
  match s.toList with
  | [] => none
  | c :: rest =>
    if c.isAlpha && (rest.takeWhile (· != ':')).all isSchemeChar && rest.any (· == ':') then
      some (String.mk (c :: rest.takeWhile (· != ':')),
            String.mk ((rest.dropWhile (· != ':')).drop 1))
    else
      none

/-- `isValidUrl` (server.js lines 27-34): `new URL(string)` succeeds. -/
def isValidUrl (s : String) : Bool :=
  (parseURL s).isSome

/-! ## Upstream payload model

The parts of the Google PageSpeed Insights response the server reads:
`lighthouseResult.audits` (an ordered collection keyed by audit id),
`lighthouseResult.categories.performance.score` (a float in `[0,1]` or
`null`), and `loadingExperience` (passed through opaquely). -/

/-- `audit.details`: only `overallSavingsMs` and `data` are read by the
server (opportunity savings and the final-screenshot image). -/
structure AuditDetails where
  overallSavingsMs : Option ℚ
  data : Option String
  deriving DecidableEq

/-- One entry of `lighthouseResult.audits`. -/
structure Audit where
  title : String
  description : String
  displayValue : Option String
  score : Option ℚ
  numericValue : Option ℚ
  details : Option AuditDetails
  deriving DecidableEq

/-- The fields of the upstream 2xx body the server reads.
`performanceCategoryScore` is `lighthouseResult.categories.performance.score`
(`none` models JSON `null`); `audits` keeps the upstream insertion order,
as `Object.entries` does. -/
structure UpstreamPayload where
  audits : List (String × Audit)
  performanceCategoryScore : Option ℚ
  loadingExperience : Option String
  deriving DecidableEq

/-! ## Numeric helpers -/

/-- JavaScript `Math.round`: round to nearest, ties toward `+∞`,
i.e. `⌊x + 1/2⌋`. -/
def mathRound (q : ℚ) : ℤ :=
  ⌊q + 1 / 2⌋

/-- `score * 100` in JavaScript where `score` may be `null`:
`null` coerces to `0`, so a `null` category score yields `0`. -/
def jsMul100 : Option ℚ → ℚ
  | none => 0
  | some s => s * 100

/-- JavaScript `m || d` on an optional string: `undefined` and the empty
string are falsy and fall back to the default. -/
def jsOrDefault (m : Option String) (d : String) : String :=
  match m with
  | none => d
  | some s => if s == "" then d else s

/-! ## Report extraction (server.js lines 100-167) -/

/-- One of the five `MetricSample`s of the report: the audit's `score`,
`displayValue` and `numericValue`, copied unchanged. -/
structure MetricSample where
  score : Option ℚ
  displayValue : Option String
  numericValue : Option ℚ
  deriving DecidableEq, Inhabited

def toSample (a : Audit) : MetricSample :=
  { score := a.score, displayValue := a.displayValue, numericValue := a.numericValue }

/-- The five named metrics of `result.metrics`. -/
structure Metrics where
  firstContentfulPaint : MetricSample
  largestContentfulPaint : MetricSample
  speedIndex : MetricSample
  totalBlockingTime : MetricSample
  cumulativeLayoutShift : MetricSample
  deriving DecidableEq, Inhabited

/-- One improvement opportunity (server.js lines 122-127). -/
structure Opportunity where
  title : String
  description : String
  savings : ℚ
  displayValue : Option String
  deriving DecidableEq

/-- The body of the opportunities loop (server.js lines 120-129): an audit
contributes an opportunity iff it has `details` and
`details.overallSavingsMs > 100` (an absent `overallSavingsMs` compares
falsy). -/
def auditOpportunity (a : Audit) : Option Opportunity :=
  match a.details with
  | none => none
  | some d =>
    match d.overallSavingsMs with
    | none => none
    | some s =>
      if s > 100 then
        some { title := a.title, description := a.description,
               savings := s, displayValue := a.displayValue }
      else
        none

/-- The full opportunities scan over `Object.entries(metrics)` in order. -/
def opportunities (audits : List (String × Audit)) : List Opportunity :=
  audits.filterMap (fun kv => auditOpportunity kv.2)

/-- The caller-facing report (`result`, server.js lines 132-167).  The
`timestamp` field is capture time (`new Date().toISOString()`), outside
this pure model. -/
structure AnalysisReport where
  url : String
  strategy : String
  performanceScore : ℤ
  metrics : Metrics
  opportunities : List Opportunity
  fieldData : Option String
  screenshot : Option String
  deriving DecidableEq, Inhabited

/-- Extraction failure: the upstream 2xx payload lacks an expected field
(in the source, reading `.score` of an absent audit throws, landing in the
catch-all handler). -/
inductive ExtractError where
  | malformedUpstreamPayload
  deriving DecidableEq

/-- Report extraction (server.js lines 100-167): builds `result` from a
2xx payload.  Each of the five metric samples dereferences
`metrics[key].score`, so an absent key makes extraction fail; the
screenshot uses optional chaining and tolerates absence. -/
def extractReport (url strategy : String) (p : UpstreamPayload) :
    Except ExtractError AnalysisReport :=
  let metrics := p.audits
  let performanceScore : ℚ := jsMul100 p.performanceCategoryScore
  match metrics.lookup "first-contentful-paint", metrics.lookup "largest-contentful-paint",
        metrics.lookup "speed-index", metrics.lookup "total-blocking-time",
        metrics.lookup "cumulative-layout-shift" with
  | some fcp, some lcp, some si, some tbt, some cls =>
    .ok { url := url
          strategy := strategy
          performanceScore := mathRound performanceScore
          metrics := { firstContentfulPaint := toSample fcp
                       largestContentfulPaint := toSample lcp
                       speedIndex := toSample si
                       totalBlockingTime := toSample tbt
                       cumulativeLayoutShift := toSample cls }
          opportunities := (opportunities metrics).take 5
          fieldData := p.loadingExperience
          screenshot := ((metrics.lookup "final-screenshot").bind Audit.details).bind
            AuditDetails.data }
  | _, _, _, _, _ => .error .malformedUpstreamPayload

/-! ## Upstream error classification (server.js lines 174-224) -/

/-- An upstream call failure as the catch block sees it: an HTTP error
response (`error.response`, with `errorData?.error?.message`), a timeout
(`error.code === 'ECONNABORTED'`), or anything else. -/
inductive UpstreamFailure where
  | httpError (status : Nat) (message : Option String)
  | timeout
  | other
  deriving DecidableEq

/-- A classified caller-facing error: HTTP status, `error` label and
`message` (the optional `details` of the 400 branch is not modelled). -/
structure ErrorResponse where
  status : Nat
  error : String
  message : String
  deriving DecidableEq

/-- The catch block (server.js lines 174-224): 400, 403 and 429 are
special-cased, other HTTP statuses pass through, `ECONNABORTED` maps to
408, and everything else to a generic 500. -/
def classifyError : UpstreamFailure → ErrorResponse
  | .httpError status message =>
    let msg := jsOrDefault message "API request failed"
    if status = 400 then
      { status := 400, error := "Bad Request", message := "Google API Error: " ++ msg }
    else if status = 403 then
      { status := 403, error := "API Key Error",
        message := "Invalid or missing Google API key. Please check your API key configuration." }
    else if status = 429 then
      { status := 429, error := "Rate Limited",
        message := "Too many requests to Google API. Please try again later." }
    else
      { status := status, error := "API Error", message := "Google API Error: " ++ msg }
  | .timeout =>
    { status := 408, error := "Timeout",
      message := "Request timed out. The website might be slow to respond." }
  | .other =>
    { status := 500, error := "Internal Server Error",
      message := "An unexpected error occurred" }

/-! ## Upstream request builder (server.js lines 71-85) -/

/-- The `params` object sent to the upstream API.  It is a plain
JavaScript object, so `category` is a single slot: assigning it again
replaces the previous value. -/
structure UpstreamQuery where
  url : String
  strategy : String
  key : Option String
  category : Option String
  deriving DecidableEq

/-- Builds `params` (server.js lines 71-85): url and strategy always, the
API key only when configured, then
`categories.forEach(category => params['category'] = category)` — each
iteration assigns the same object key. -/
def buildParams (url strategy : String) (categories : List String)
    (apiKey : Option String) : UpstreamQuery :=
  categories.foldl (fun p c => { p with category := some c })
    { url := url, strategy := strategy, key := apiKey, category := none }

/-! ## Single-strategy orchestrator (`POST /api/pagespeed`, lines 37-225) -/

/-- The request body `{ url, strategy, categories }`; absent properties are
`none` and pick up the destructuring defaults. -/
structure RequestBody where
  url : Option String
  strategy : Option String
  categories : Option (List String)
  deriving DecidableEq

/-- What one upstream `axios.get` produces: a 2xx payload or a failure. -/
inductive UpstreamResult where
  | ok (payload : UpstreamPayload)
  | err (failure : UpstreamFailure)

/-- The Analyze response: the `{success: true, data}` envelope or an
error `{error, message}` with its HTTP status. -/
inductive AnalyzeResponse where
  | success (report : AnalysisReport)
  | failure (status : Nat) (error message : String)
  deriving DecidableEq

/-- The Analyze handler (server.js lines 37-225), with the upstream call
abstracted as a function from the built query to an `UpstreamResult`.
Returns the response together with the list of upstream queries issued,
so that "never contacts upstream" is observable.  `!url` is true for an
absent or empty url; extraction failure lands in the catch-all branch of
`classifyError`. -/
def analyze (apiKey : Option String) (body : RequestBody)
    (upstream : UpstreamQuery → UpstreamResult) :
    AnalyzeResponse × List UpstreamQuery :=
  let url := body.url.getD ""
  let strategy := body.strategy.getD "mobile"
  let categories := body.categories.getD ["performance"]
  if url = "" then
    (.failure 400 "URL is required" "Please provide a valid URL to analyze", [])
  else if !isValidUrl url then
    (.failure 400 "Invalid URL"
      "Please provide a valid URL format (including http:// or https://)", [])
  else if !(["mobile", "desktop"].contains strategy) then
    (.failure 400 "Invalid strategy"
      "Strategy must be either \"mobile\" or \"desktop\"", [])
  else
    let query := buildParams url strategy categories apiKey
    match upstream query with
    | .ok payload =>
      match extractReport url strategy payload with
      | .ok report => (.success report, [query])
      | .error _ =>
        let e := classifyError .other
        (.failure e.status e.error e.message, [query])
    | .err f =>
      let e := classifyError f
      (.failure e.status e.error e.message, [query])

/-! ## Dual-strategy orchestrator (`POST /api/pagespeed/compare`, lines 228-295) -/

/-- One element of the `Promise.allSettled` result: a fulfilled upstream
call carrying its payload, or a rejected one carrying `reason.message`. -/
inductive SettledResult where
  | fulfilled (payload : UpstreamPayload)
  | rejected (message : String)
  deriving DecidableEq

/-- One strategy's entry in the Compare result (server.js lines 253-279). -/
structure StrategyOutcome where
  score : Option ℤ
  status : String
  error : Option String
  deriving DecidableEq

/-- How one settled upstream call becomes a `StrategyOutcome`
(server.js lines 253-279): fulfilled means
`round(categories.performance.score * 100)` with status `success`;
rejected means a `null` score, status `failed` and the reason message. -/
def settleStrategy : SettledResult → StrategyOutcome
  | .fulfilled p =>
    { score := some (mathRound (jsMul100 p.performanceCategoryScore)),
      status := "success", error := none }
  | .rejected msg =>
    { score := none, status := "failed", error := some msg }

/-- The Compare response: the `{success: true, url, data}` envelope or an
error with its HTTP status. -/
inductive CompareResponse where
  | success (url : String) (mobile desktop : StrategyOutcome)
  | failure (status : Nat) (error message : String)
  deriving DecidableEq

/-- The Compare handler (server.js lines 228-295), with the two settled
upstream outcomes as inputs — `Promise.allSettled` waits for both, and
both settled values flow into the result regardless of each other. -/
def compare (bodyUrl : Option String) (mobileSettled desktopSettled : SettledResult) :
    CompareResponse :=
  let url := bodyUrl.getD ""
  if url = "" || !isValidUrl url then
    .failure 400 "Invalid URL" "Please provide a valid URL"
  else
    .success url (settleStrategy mobileSettled) (settleStrategy desktopSettled)

/-! ## Specification-side definitions -/

/-- Modelled from the spec: round to nearest with ties (exact .5) away
from zero — the rounding rule §4.3 of the spec prescribes. -/
def specRound (q : ℚ) : ℤ :=
  if 0 ≤ q then ⌊q + 1 / 2⌋ else ⌈q - 1 / 2⌉

/-- The predicate of §3 `Opportunity`: the audit has
`details.overallSavingsMs` strictly greater than 100. -/
def isOpportunity (a : Audit) : Bool :=
  match a.details with
  | none => false
  | some d =>
    match d.overallSavingsMs with
    | none => false
    | some s => decide (s > 100)

/-- The `Opportunity` an audit satisfying `isOpportunity` maps to. -/
def toOpportunity (a : Audit) : Opportunity :=
  { title := a.title, description := a.description,
    savings := (a.details.bind AuditDetails.overallSavingsMs).getD 0,
    displayValue := a.displayValue }

/-! ## Concrete fixtures -/

/-- A metric audit fixture with a given score and no `details`. -/
def metricAudit (t : String) (sc : Option ℚ) : Audit :=
  { title := t, description := "", displayValue := some t,
    score := sc, numericValue := some 1000, details := none }

/-- A diagnostic audit fixture carrying `details.overallSavingsMs`. -/
def oppAudit (t : String) (ms : ℚ) : Audit :=
  { title := t, description := "", displayValue := none,
    score := none, numericValue := none, details := some ⟨some ms, none⟩ }

/-- The five metric audits every successful extraction needs, with the
total-blocking-time score configurable. -/
def metricAudits (tbtScore : Option ℚ) : List (String × Audit) :=
  [("first-contentful-paint", metricAudit "FCP" (some (9 / 10))),
   ("largest-contentful-paint", metricAudit "LCP" (some (8 / 10))),
   ("speed-index", metricAudit "SI" (some (7 / 10))),
   ("total-blocking-time", metricAudit "TBT" tbtScore),
   ("cumulative-layout-shift", metricAudit "CLS" (some (5 / 10)))]

/-- Payload with category score `0.873` and seven diagnostic audits whose
savings are `50, 150, 900, 101, 99, 5000, 200` in that order. -/
def payload7 : UpstreamPayload :=
  { audits := metricAudits (some (6 / 10)) ++
      [("opp1", oppAudit "opp1" 50), ("opp2", oppAudit "opp2" 150),
       ("opp3", oppAudit "opp3" 900), ("opp4", oppAudit "opp4" 101),
       ("opp5", oppAudit "opp5" 99), ("opp6", oppAudit "opp6" 5000),
       ("opp7", oppAudit "opp7" 200)],
    performanceCategoryScore := some (873 / 1000),
    loadingExperience := none }

/-- The report `payload7` extracts to. -/
def report7 : AnalysisReport :=
  ((extractReport "https://example.com/" "mobile" payload7).toOption).getD default

/-- Payload whose audits collection lacks `total-blocking-time`. -/
def payloadNoTBT : UpstreamPayload :=
  { audits := [("first-contentful-paint", metricAudit "FCP" (some (9 / 10))),
               ("largest-contentful-paint", metricAudit "LCP" (some (8 / 10))),
               ("speed-index", metricAudit "SI" (some (7 / 10))),
               ("cumulative-layout-shift", metricAudit "CLS" (some (5 / 10)))],
    performanceCategoryScore := some (873 / 1000),
    loadingExperience := none }

/-- Payload whose total-blocking-time audit has a `null` score. -/
def payloadNullScore : UpstreamPayload :=
  { audits := metricAudits none,
    performanceCategoryScore := some (873 / 1000),
    loadingExperience := none }

/-- The report `payloadNullScore` extracts to. -/
def reportNullScore : AnalysisReport :=
  ((extractReport "https://example.com/" "mobile" payloadNullScore).toOption).getD default

/-- Payload whose performance category score is `null`. -/
def payloadNullCat : UpstreamPayload :=
  { audits := metricAudits (some (6 / 10)),
    performanceCategoryScore := none,
    loadingExperience := none }

/-- The report `payloadNullCat` extracts to. -/
def reportNullCat : AnalysisReport :=
  ((extractReport "https://example.com/" "mobile" payloadNullCat).toOption).getD default

/-- Payload with category score `0.9`, for the Compare example. -/
def payload90 : UpstreamPayload :=
  { audits := metricAudits (some (6 / 10)),
    performanceCategoryScore := some (9 / 10),
    loadingExperience := none }

/-- A fixed upstream stub that always times out; used to instantiate the
upstream parameter where its behaviour is irrelevant. -/
def timeoutUpstream : UpstreamQuery → UpstreamResult :=
  fun _ => .err .timeout

/-! ## Helper lemmas -/

/-- Successful extraction determines the report shape: all five metric
lookups succeeded and every field of the report is the corresponding
function of the payload. -/
theorem extractReport_eq_ok (url strategy : String) (p : UpstreamPayload)
    (r : AnalysisReport) (h : extractReport url strategy p = .ok r) :
    ∃ fcp lcp si tbt cls,
      p.audits.lookup "first-contentful-paint" = some fcp ∧
      p.audits.lookup "largest-contentful-paint" = some lcp ∧
      p.audits.lookup "speed-index" = some si ∧
      p.audits.lookup "total-blocking-time" = some tbt ∧
      p.audits.lookup "cumulative-layout-shift" = some cls ∧
      r = { url := url
            strategy := strategy
            performanceScore := mathRound (jsMul100 p.performanceCategoryScore)
            metrics := { firstContentfulPaint := toSample fcp
                         largestContentfulPaint := toSample lcp
                         speedIndex := toSample si
                         totalBlockingTime := toSample tbt
                         cumulativeLayoutShift := toSample cls }
            opportunities := (opportunities p.audits).take 5
            fieldData := p.loadingExperience
            screenshot := ((p.audits.lookup "final-screenshot").bind Audit.details).bind
              AuditDetails.data } := by
  unfold extractReport at h
  simp only [] at h
  split at h
  case _ fcp lcp si tbt cls hfcp hlcp hsi htbt hcls =>
    exact ⟨fcp, lcp, si, tbt, cls, hfcp, hlcp, hsi, htbt, hcls, (Except.ok.inj h).symm⟩
  case _ =>
    exact absurd h (by simp)

/-- The branch condition and value of the opportunities loop body, split
out: an audit contributes iff `isOpportunity`, and then contributes
`toOpportunity`. -/
theorem auditOpportunity_eq (a : Audit) :
    auditOpportunity a = if isOpportunity a then some (toOpportunity a) else none := by
  rcases a with ⟨t, desc, dv, sc, nv, det⟩
  cases det with
  | none => rfl
  | some dd =>
    rcases dd with ⟨ms, data⟩
    cases ms with
    | none => rfl
    | some s =>
      by_cases hs : s > 100
      · simp [auditOpportunity, isOpportunity, toOpportunity, hs]
      · simp [auditOpportunity, isOpportunity, toOpportunity, hs]

/-- The opportunities scan is filtering on the savings threshold followed
by projecting each surviving audit, order preserved. -/
theorem opportunities_eq_filter (l : List (String × Audit)) :
    opportunities l =
      (l.filter (fun kv => isOpportunity kv.2)).map (fun kv => toOpportunity kv.2) := by
  unfold opportunities
  induction l with
  | nil => rfl
  | cons kv tl ih =>
    rw [List.filterMap_cons, List.filter_cons, auditOpportunity_eq]
    by_cases h : isOpportunity kv.2
    · simp [h, ih]
    · simp [h, ih]

/-! ## Claims -/

/-- C1: the claim says every requested category reaches the upstream
query as a repeated same-named parameter.  The builder instead assigns
the single `category` key of the params object on each iteration, so for
two requested categories the built query carries only the last one —
`performance` is dropped and only `accessibility` remains. -/
theorem c1_category_overwritten :
    buildParams "https://example.com/" "mobile" ["performance", "accessibility"] none =
      { url := "https://example.com/", strategy := "mobile", key := none,
        category := some "accessibility" } := rfl

/-- C2: for a Compare request with a valid url the response is the
request-level success envelope pairing both settled outcomes, each
computed from its own settled result alone: a fulfilled call with
category score `s` yields status `success` and score `round(s*100)`, a
rejected call yields status `failed`, a `null` score and the reason
message. -/
theorem c2_compare_outcomes_independent (url : String) (m d : SettledResult)
    (h₁ : url ≠ "") (h₂ : isValidUrl url = true) :
    compare (some url) m d = .success url (settleStrategy m) (settleStrategy d) ∧
    (∀ p s, p.performanceCategoryScore = some s →
      settleStrategy (.fulfilled p) =
        { score := some (mathRound (s * 100)), status := "success", error := none }) ∧
    (∀ e, settleStrategy (.rejected e) =
      { score := none, status := "failed", error := some e }) := by
  refine ⟨?_, ?_, ?_⟩
  · unfold compare
    simp [h₁, h₂]
  · intro p s hs
    simp [settleStrategy, jsMul100, hs]
  · intro e
    rfl

/-- Witness for C2: score `0.9` on mobile with a timed-out desktop call
yields mobile success 90 and desktop failed with a `null` score, inside
the success envelope. -/
theorem c2_witness :
    ("https://example.com/" : String) ≠ "" ∧
    isValidUrl "https://example.com/" = true ∧
    compare (some "https://example.com/") (.fulfilled payload90)
        (.rejected "timeout of 30000ms exceeded") =
      .success "https://example.com/"
        { score := some 90, status := "success", error := none }
        { score := none, status := "failed", error := some "timeout of 30000ms exceeded" } := by
  refine ⟨by decide, by decide, ?_⟩
  have h := c2_compare_outcomes_independent "https://example.com/" (.fulfilled payload90)
    (.rejected "timeout of 30000ms exceeded") (by decide) (by decide)
  rw [h.1, h.2.1 payload90 (9 / 10) rfl]
  have h90 : mathRound ((9 : ℚ) / 10 * 100) = 90 := by
    unfold mathRound
    norm_num
  rw [h90]
  rfl

/-- C3: on successful extraction the report's opportunities are exactly
the audit entries whose `details.overallSavingsMs` strictly exceeds 100,
in their original order of appearance, truncated to the first 5 after
filtering. -/
theorem c3_opportunities_filter_then_truncate (url strategy : String)
    (p : UpstreamPayload) (r : AnalysisReport)
    (h : extractReport url strategy p = .ok r) :
    r.opportunities =
      ((p.audits.filter (fun kv => isOpportunity kv.2)).map
        (fun kv => toOpportunity kv.2)).take 5 := by
  obtain ⟨fcp, lcp, si, tbt, cls, _, _, _, _, _, hr⟩ :=
    extractReport_eq_ok url strategy p r h
  subst hr
  simp [opportunities_eq_filter]

/-- Witness for C3: seven entries with savings `50, 150, 900, 101, 99,
5000, 200` produce exactly the five opportunities with savings
`150, 900, 101, 5000, 200`. -/
theorem c3_witness :
    extractReport "https://example.com/" "mobile" payload7 = .ok report7 ∧
    report7.opportunities.map Opportunity.savings = [150, 900, 101, 5000, 200] := by
  refine ⟨rfl, ?_⟩
  rw [c3_opportunities_filter_then_truncate "https://example.com/" "mobile" payload7
    report7 rfl]
  rfl

/-- C4: on successful extraction with category score `s ∈ [0,1]`, the
report's `performanceScore` is `s * 100` rounded to the nearest integer
with ties away from zero; in particular `0.873` rounds to `87`. -/
theorem c4_performance_score_rounding (s : ℚ) (h0 : 0 ≤ s) (h1 : s ≤ 1)
    (url strategy : String) (p : UpstreamPayload)
    (hs : p.performanceCategoryScore = some s)
    (r : AnalysisReport) (h : extractReport url strategy p = .ok r) :
    r.performanceScore = specRound (s * 100) ∧ specRound ((873 : ℚ) / 1000 * 100) = 87 := by
  constructor
  · obtain ⟨_, _, _, _, _, _, _, _, _, _, hr⟩ := extractReport_eq_ok url strategy p r h
    subst hr
    show mathRound (jsMul100 p.performanceCategoryScore) = specRound (s * 100)
    rw [hs]
    show mathRound (s * 100) = specRound (s * 100)
    unfold mathRound specRound
    rw [if_pos (mul_nonneg h0 (by norm_num))]
  · unfold specRound
    rw [if_pos (by norm_num)]
    norm_num

/-- Witness for C4: the payload with category score `0.873` extracts to a
report whose `performanceScore` is `87`. -/
theorem c4_witness :
    (0 ≤ (873 : ℚ) / 1000 ∧ (873 : ℚ) / 1000 ≤ 1) ∧
    payload7.performanceCategoryScore = some ((873 : ℚ) / 1000) ∧
    extractReport "https://example.com/" "mobile" payload7 = .ok report7 ∧
    report7.performanceScore = specRound ((873 : ℚ) / 1000 * 100) ∧
    report7.performanceScore = 87 := by
  have h := c4_performance_score_rounding ((873 : ℚ) / 1000) (by norm_num) (by norm_num)
    "https://example.com/" "mobile" payload7 rfl report7 rfl
  exact ⟨⟨by norm_num, by norm_num⟩, rfl, rfl, h.1, h.1.trans h.2⟩

/-- C5: a 2xx payload whose audits collection lacks any one of the five
fixed metric keys makes extraction fail with `MalformedUpstreamPayload`. -/
theorem c5_missing_metric_malformed (url strategy : String) (p : UpstreamPayload)
    (h : p.audits.lookup "first-contentful-paint" = none ∨
         p.audits.lookup "largest-contentful-paint" = none ∨
         p.audits.lookup "speed-index" = none ∨
         p.audits.lookup "total-blocking-time" = none ∨
         p.audits.lookup "cumulative-layout-shift" = none) :
    extractReport url strategy p = .error .malformedUpstreamPayload := by
  unfold extractReport
  simp only []
  split
  case _ fcp lcp si tbt cls hfcp hlcp hsi htbt hcls =>
    rcases h with h | h | h | h | h <;> simp_all
  case _ => rfl

/-- Witness for C5: a payload without the `total-blocking-time` audit
fails extraction with `MalformedUpstreamPayload`. -/
theorem c5_witness :
    payloadNoTBT.audits.lookup "total-blocking-time" = none ∧
    extractReport "https://example.com/" "mobile" payloadNoTBT =
      .error .malformedUpstreamPayload :=
  ⟨rfl, c5_missing_metric_malformed "https://example.com/" "mobile" payloadNoTBT
    (Or.inr (Or.inr (Or.inr (Or.inl rfl))))⟩

/-- C6: every validation failure of Analyze — absent or empty url,
syntactically invalid url, or a strategy outside mobile/desktop — yields
the corresponding 400 response and issues no upstream query. -/
theorem c6_validation_resolved_locally (apiKey : Option String) (body : RequestBody)
    (upstream : UpstreamQuery → UpstreamResult) :
    (body.url.getD "" = "" →
      analyze apiKey body upstream =
        (.failure 400 "URL is required" "Please provide a valid URL to analyze", [])) ∧
    (body.url.getD "" ≠ "" → isValidUrl (body.url.getD "") = false →
      analyze apiKey body upstream =
        (.failure 400 "Invalid URL"
          "Please provide a valid URL format (including http:// or https://)", [])) ∧
    (body.url.getD "" ≠ "" → isValidUrl (body.url.getD "") = true →
      (["mobile", "desktop"] : List String).contains (body.strategy.getD "mobile") = false →
      analyze apiKey body upstream =
        (.failure 400 "Invalid strategy"
          "Strategy must be either \"mobile\" or \"desktop\"", [])) := by
  refine ⟨?_, ?_, ?_⟩
  · intro h
    unfold analyze
    simp [h]
  · intro h1 h2
    unfold analyze
    simp [h1, h2]
  · intro h1 h2 h3
    unfold analyze
    simp only []
    rw [if_neg h1]
    rw [if_neg (show ¬(!isValidUrl (body.url.getD "")) = true by rw [h2]; decide)]
    rw [if_pos (show (!(["mobile", "desktop"] : List String).contains
      (body.strategy.getD "mobile")) = true by rw [h3]; rfl)]

/-- Witness for C6: a body with no url, one with the scheme-less url
`example.com`, and one with strategy `tablet` each produce their 400
response with an empty list of issued upstream queries. -/
theorem c6_witness :
    analyze none { url := none, strategy := none, categories := none } timeoutUpstream =
      (.failure 400 "URL is required" "Please provide a valid URL to analyze", []) ∧
    analyze none { url := some "example.com", strategy := none, categories := none }
        timeoutUpstream =
      (.failure 400 "Invalid URL"
        "Please provide a valid URL format (including http:// or https://)", []) ∧
    analyze none
        { url := some "https://example.com/", strategy := some "tablet", categories := none }
        timeoutUpstream =
      (.failure 400 "Invalid strategy"
        "Strategy must be either \"mobile\" or \"desktop\"", []) :=
  ⟨(c6_validation_resolved_locally none
      { url := none, strategy := none, categories := none } timeoutUpstream).1 rfl,
   (c6_validation_resolved_locally none
      { url := some "example.com", strategy := none, categories := none }
      timeoutUpstream).2.1 (by decide) (by decide),
   (c6_validation_resolved_locally none
      { url := some "https://example.com/", strategy := some "tablet", categories := none }
      timeoutUpstream).2.2 (by decide) (by decide) (by decide)⟩

/-- C7: an upstream HTTP 403 on Analyze is classified with the fixed
`API Key Error` label and a constant generic message; any two upstream
403 responses, whatever their bodies, produce the identical caller-facing
response. -/
theorem c7_credential_error_fixed_message (m₁ m₂ : Option String) :
    classifyError (.httpError 403 m₁) =
      { status := 403, error := "API Key Error",
        message :=
          "Invalid or missing Google API key. Please check your API key configuration." } ∧
    classifyError (.httpError 403 m₁) = classifyError (.httpError 403 m₂) := ⟨rfl, rfl⟩

/-- C8: on successful extraction each of the five metric samples carries
the corresponding upstream audit's `score` unchanged — in particular a
`null` upstream score stays `null`. -/
theorem c8_metric_scores_unchanged (url strategy : String) (p : UpstreamPayload)
    (r : AnalysisReport) (h : extractReport url strategy p = .ok r) :
    (∀ a, p.audits.lookup "first-contentful-paint" = some a →
      r.metrics.firstContentfulPaint.score = a.score) ∧
    (∀ a, p.audits.lookup "largest-contentful-paint" = some a →
      r.metrics.largestContentfulPaint.score = a.score) ∧
    (∀ a, p.audits.lookup "speed-index" = some a →
      r.metrics.speedIndex.score = a.score) ∧
    (∀ a, p.audits.lookup "total-blocking-time" = some a →
      r.metrics.totalBlockingTime.score = a.score) ∧
    (∀ a, p.audits.lookup "cumulative-layout-shift" = some a →
      r.metrics.cumulativeLayoutShift.score = a.score) := by
  obtain ⟨fcp, lcp, si, tbt, cls, hfcp, hlcp, hsi, htbt, hcls, hr⟩ :=
    extractReport_eq_ok url strategy p r h
  subst hr
  refine ⟨fun a ha => ?_, fun a ha => ?_, fun a ha => ?_, fun a ha => ?_, fun a ha => ?_⟩
  · rw [hfcp] at ha
    cases Option.some.inj ha
    rfl
  · rw [hlcp] at ha
    cases Option.some.inj ha
    rfl
  · rw [hsi] at ha
    cases Option.some.inj ha
    rfl
  · rw [htbt] at ha
    cases Option.some.inj ha
    rfl
  · rw [hcls] at ha
    cases Option.some.inj ha
    rfl

/-- Witness for C8: a payload whose total-blocking-time audit has a
`null` score extracts to a report whose total-blocking-time sample score
is `null`, not `0`. -/
theorem c8_witness :
    extractReport "https://example.com/" "mobile" payloadNullScore = .ok reportNullScore ∧
    payloadNullScore.audits.lookup "total-blocking-time" = some (metricAudit "TBT" none) ∧
    reportNullScore.metrics.totalBlockingTime.score = none := by
  refine ⟨rfl, rfl, ?_⟩
  have h := (c8_metric_scores_unchanged "https://example.com/" "mobile" payloadNullScore
    reportNullScore rfl).2.2.2.1 (metricAudit "TBT" none) rfl
  rw [h]
  rfl

/-- C9: the validator rejects the scheme-less `example.com` as an
invalid url (Analyze answers the `Invalid URL` 400 without an upstream
query), and the validator coincides with the absolute-URL parser in both
directions — everything the parser accepts passes validation, and
nothing else does (no scheme prefixing). -/
theorem c9_scheme_required (apiKey : Option String)
    (upstream : UpstreamQuery → UpstreamResult) :
    isValidUrl "example.com" = false ∧
    analyze apiKey { url := some "example.com", strategy := none, categories := none }
        upstream =
      (.failure 400 "Invalid URL"
        "Please provide a valid URL format (including http:// or https://)", []) ∧
    (∀ s, (parseURL s).isSome = true → isValidUrl s = true) ∧
    (∀ s, isValidUrl s = true → (parseURL s).isSome = true) :=
  ⟨by decide, rfl, fun _ h => h, fun _ h => h⟩

/-- Witness for C9: `https://example.com/` is accepted by the parser and
hence passes validation. -/
theorem c9_witness :
    (parseURL "https://example.com/").isSome = true ∧
    isValidUrl "https://example.com/" = true :=
  ⟨by decide,
   (c9_scheme_required none timeoutUpstream).2.2.1 "https://example.com/" (by decide)⟩

/-- C10: a 2xx payload whose performance category score is `null` still
extracts successfully when the five metric audits are present — the
multiplication coerces `null` to `0`, so the report's `performanceScore`
is `0` — and Compare reports a fulfilled call with a `null` category
score as status `success` with score `0`. -/
theorem c10_null_score_coerced_to_zero (url strategy : String) (p : UpstreamPayload)
    (hnull : p.performanceCategoryScore = none)
    (fcp lcp si tbt cls : Audit)
    (hfcp : p.audits.lookup "first-contentful-paint" = some fcp)
    (hlcp : p.audits.lookup "largest-contentful-paint" = some lcp)
    (hsi : p.audits.lookup "speed-index" = some si)
    (htbt : p.audits.lookup "total-blocking-time" = some tbt)
    (hcls : p.audits.lookup "cumulative-layout-shift" = some cls) :
    (∃ r, extractReport url strategy p = .ok r ∧ r.performanceScore = 0) ∧
    settleStrategy (.fulfilled p) =
      { score := some 0, status := "success", error := none } := by
  have hms : mathRound (jsMul100 p.performanceCategoryScore) = 0 := by
    rw [hnull]
    unfold jsMul100 mathRound
    norm_num
  constructor
  · have hok : extractReport url strategy p = .ok
        { url := url
          strategy := strategy
          performanceScore := mathRound (jsMul100 p.performanceCategoryScore)
          metrics := { firstContentfulPaint := toSample fcp
                       largestContentfulPaint := toSample lcp
                       speedIndex := toSample si
                       totalBlockingTime := toSample tbt
                       cumulativeLayoutShift := toSample cls }
          opportunities := (opportunities p.audits).take 5
          fieldData := p.loadingExperience
          screenshot := ((p.audits.lookup "final-screenshot").bind Audit.details).bind
            AuditDetails.data } := by
      unfold extractReport
      simp only []
      rw [hfcp, hlcp, hsi, htbt, hcls]
    exact ⟨_, hok, hms⟩
  · simp only [settleStrategy]
    rw [hms]

/-- Witness for C10: the fixture payload with a `null` category score
extracts to a report with `performanceScore = 0`, and its fulfilled
Compare outcome is success with score `0`. -/
theorem c10_witness :
    payloadNullCat.performanceCategoryScore = none ∧
    (∃ r, extractReport "https://example.com/" "mobile" payloadNullCat = .ok r ∧
      r.performanceScore = 0) ∧
    settleStrategy (.fulfilled payloadNullCat) =
      { score := some 0, status := "success", error := none } := by
  have h := c10_null_score_coerced_to_zero "https://example.com/" "mobile" payloadNullCat
    rfl _ _ _ _ _ rfl rfl rfl rfl rfl
  exact ⟨rfl, h.1, h.2⟩

end PageSpeed
